import Mathlib

/-!
Verification development for the compliance_control service.

Shallow embedding of the Python sources:
- `src/app/main.py` (extract_json, the /compliance/check handler),
- `src/app/models.py` (ComplianceResponse pydantic model),
- `src/app/query_builder.py` (from_flat_payload, the transit-route flag),
- `src/app/normalizer.py` (AdvancedTextNormalizer.generate_all_variants).

Machine integers do not occur; all string values are Lean `String`s and the
embedding models Python semantics (truthiness, `str.strip`, `str.upper`,
regular-expression fragments actually used by the code) explicitly.
-/

namespace ComplianceControl

/-- Character constant: double quote. -/
def chQuote : Char := Char.ofNat 34

/-- Character constant: apostrophe (single quote). -/
def chApos : Char := Char.ofNat 39

/-- Character constant: backtick. -/
def chBacktick : Char := Char.ofNat 96

/-- Character constant: opening curly brace. -/
def chLBrace : Char := Char.ofNat 123

/-- Character constant: closing curly brace. -/
def chRBrace : Char := Char.ofNat 125

/-- Character constant: backslash. -/
def chBackslash : Char := Char.ofNat 92

/-- Character constant: left guillemet. -/
def chLaquo : Char := Char.ofNat 171

/-- Character constant: right guillemet. -/
def chRaquo : Char := Char.ofNat 187

/-- Whitespace characters recognised by Python `str.split`, `str.strip` and
`str.isspace` (restricted to the ASCII whitespace actually occurring in this
code base). -/
def pyIsSpaceChar (c : Char) : Bool :=
  c = ' ' || c = Char.ofNat 9 || c = Char.ofNat 10 || c = Char.ofNat 13 ||
  c = Char.ofNat 11 || c = Char.ofNat 12

/-- Model of Python `str.strip()` on a character list. -/
def pyStripList (cs : List Char) : List Char :=
  (cs.dropWhile pyIsSpaceChar).reverse.dropWhile pyIsSpaceChar |>.reverse

/-- Model of Python `str.strip()`. -/
def pyStrip (s : String) : String :=
  String.mk (pyStripList s.data)

/-- Model of Python `str.isspace()`: non-empty and all whitespace. -/
def pyIsSpace (s : String) : Bool :=
  !s.data.isEmpty && s.data.all pyIsSpaceChar

/-- Model of Python `str.split()` with no separator: split on whitespace runs,
discarding empty groups. -/
def pySplitWS (s : String) : List String :=
  ((s.data.splitOnP pyIsSpaceChar).filter (fun g => !g.isEmpty)).map String.mk

/-- Model of `' '.join(s.split())`: collapse whitespace runs to single spaces
and drop leading/trailing whitespace. -/
def collapseWS (s : String) : String :=
  String.intercalate " " (pySplitWS s)

/-- Lower-casing of a single character, covering the alphabets of this code
base: ASCII letters and the Russian Cyrillic block (А-Я plus Ё). This models
Python case folding restricted to those alphabets. -/
def charLower (c : Char) : Char :=
  if 65 ≤ c.toNat && c.toNat ≤ 90 then Char.ofNat (c.toNat + 32)
  else if 0x410 ≤ c.toNat && c.toNat ≤ 0x42F then Char.ofNat (c.toNat + 32)
  else if c.toNat = 0x401 then Char.ofNat 0x451
  else c

/-- Upper-casing of a single character (ASCII plus Russian Cyrillic). -/
def charUpper (c : Char) : Char :=
  if 97 ≤ c.toNat && c.toNat ≤ 122 then Char.ofNat (c.toNat - 32)
  else if 0x430 ≤ c.toNat && c.toNat ≤ 0x44F then Char.ofNat (c.toNat - 32)
  else if c.toNat = 0x451 then Char.ofNat 0x401
  else c

/-- Model of Python `str.lower()` (ASCII plus Russian Cyrillic). -/
def pyLower (s : String) : String := String.mk (s.data.map charLower)

/-- Model of Python `str.upper()` (ASCII plus Russian Cyrillic). -/
def pyUpper (s : String) : String := String.mk (s.data.map charUpper)

/-- Replacement worker for `pyReplace`. -/
def replaceSubAux (needle repl : List Char) : Nat → List Char → List Char
  | 0, s => s
  | _ + 1, [] => []
  | fuel + 1, c :: rest =>
    if needle.isPrefixOf (c :: rest) then
      repl ++ replaceSubAux needle repl fuel ((c :: rest).drop needle.length)
    else c :: replaceSubAux needle repl fuel rest

/-- Model of Python `s.replace(needle, repl)` for a non-empty needle:
replace every non-overlapping occurrence, scanning left to right. -/
def pyReplace (s needle repl : String) : String :=
  String.mk (replaceSubAux needle.data repl.data s.data.length s.data)

/-- Containment of one character list in another as a contiguous sublist,
modelling Python `needle in hay` for strings. -/
def listContainsSub (hay needle : List Char) : Bool :=
  match hay with
  | [] => needle.isEmpty
  | _ :: t => needle.isPrefixOf hay || listContainsSub t needle

/-- Model of Python `needle in hay` for strings. -/
def pyInStr (needle hay : String) : Bool :=
  listContainsSub hay.data needle.data

/-- JSON values as produced by Python `json.loads`; numbers are modelled as
integers, which covers every document occurring in this development (the
sources never materialise fractional JSON numbers). -/
inductive Json where
  | null : Json
  | bool (b : Bool) : Json
  | num (n : Int) : Json
  | str (s : String) : Json
  | arr (elems : List Json) : Json
  | obj (fields : List (String × Json)) : Json

/-- Lookup in a JSON object field list, modelling Python `dict.get(k)`
(returns the value of the first binding of the key; the parser below keeps
keys unique). -/
def jsonLookup (kvs : List (String × Json)) (k : String) : Option Json :=
  match kvs with
  | [] => none
  | (k2, v) :: rest => if k2 = k then some v else jsonLookup rest k

/-- Update of a JSON object field list, modelling Python dict insertion:
an existing key keeps its position and receives the new value, a new key is
appended. -/
def jsonObjUpdate (kvs : List (String × Json)) (k : String) (v : Json) :
    List (String × Json) :=
  match kvs with
  | [] => [(k, v)]
  | (k2, v2) :: rest =>
    if k2 = k then (k2, v) :: rest else (k2, v2) :: jsonObjUpdate rest k v

/-- Python truthiness of a JSON value: `None`, `False`, `0`, `""`, `[]` and
empty objects are falsy. -/
def pyTruthy (j : Json) : Bool :=
  match j with
  | .null => false
  | .bool b => b
  | .num n => n != 0
  | .str s => !s.isEmpty
  | .arr l => !l.isEmpty
  | .obj l => !l.isEmpty

/-- JSON whitespace skipping (space, tab, newline, carriage return), as in
Python `json.decoder`. -/
def jsonSkipWS (cs : List Char) : List Char :=
  match cs with
  | c :: rest =>
    if c = ' ' || c = Char.ofNat 9 || c = Char.ofNat 10 || c = Char.ofNat 13 then
      jsonSkipWS rest
    else c :: rest
  | [] => []

/-- Value of a hexadecimal digit, if any. -/
def hexVal (c : Char) : Option Nat :=
  if 48 ≤ c.toNat && c.toNat ≤ 57 then some (c.toNat - 48)
  else if 97 ≤ c.toNat && c.toNat ≤ 102 then some (c.toNat - 87)
  else if 65 ≤ c.toNat && c.toNat ≤ 70 then some (c.toNat - 55)
  else none

/-- JSON string literal body (after the opening quote): ordinary characters,
the standard escapes and `\uXXXX` (modelled without surrogate-pair joining,
which never occurs in this development); raw control characters are rejected
as in Python strict mode. Returns the decoded text and the remainder after
the closing quote. -/
def jsonStrBody (fuel : Nat) (cs : List Char) (acc : List Char) :
    Option (String × List Char) :=
  match fuel with
  | 0 => none
  | fuel + 1 =>
    match cs with
    | [] => none
    | c :: rest =>
      if c = chQuote then some (String.mk acc.reverse, rest)
      else if c = chBackslash then
        match rest with
        | [] => none
        | e :: rest2 =>
          if e = chQuote then jsonStrBody fuel rest2 (chQuote :: acc)
          else if e = chBackslash then jsonStrBody fuel rest2 (chBackslash :: acc)
          else if e = '/' then jsonStrBody fuel rest2 ('/' :: acc)
          else if e = 'b' then jsonStrBody fuel rest2 (Char.ofNat 8 :: acc)
          else if e = 'f' then jsonStrBody fuel rest2 (Char.ofNat 12 :: acc)
          else if e = 'n' then jsonStrBody fuel rest2 (Char.ofNat 10 :: acc)
          else if e = 'r' then jsonStrBody fuel rest2 (Char.ofNat 13 :: acc)
          else if e = 't' then jsonStrBody fuel rest2 (Char.ofNat 9 :: acc)
          else if e = 'u' then
            match rest2 with
            | h1 :: h2 :: h3 :: h4 :: rest3 =>
              match hexVal h1, hexVal h2, hexVal h3, hexVal h4 with
              | some a, some b, some c2, some d =>
                jsonStrBody fuel rest3
                  (Char.ofNat (((a * 16 + b) * 16 + c2) * 16 + d) :: acc)
              | _, _, _, _ => none
            | _ => none
          else none
      else if c.toNat < 32 then none
      else jsonStrBody fuel rest (c :: acc)

/-- Decimal digits consumed greedily. -/
def takeDigits (cs : List Char) : List Char × List Char :=
  (cs.takeWhile Char.isDigit, cs.dropWhile Char.isDigit)

/-- Value of a digit string. -/
def digitsToNat (ds : List Char) : Nat :=
  ds.foldl (fun acc c => acc * 10 + (c.toNat - 48)) 0

mutual

/-- JSON value, modelling Python `json.loads` grammar. Fractional and
exponent number forms (which Python would parse as floats) are outside the
model and rejected; every document this development evaluates is integral. -/
def jsonVal (fuel : Nat) (cs : List Char) : Option (Json × List Char) :=
  match fuel with
  | 0 => none
  | fuel + 1 =>
    let cs := jsonSkipWS cs
    match cs with
    | [] => none
    | c :: rest =>
      if c = chQuote then
        match jsonStrBody (rest.length + 1) rest [] with
        | some (s, r) => some (.str s, r)
        | none => none
      else if c = chLBrace then
        let r1 := jsonSkipWS rest
        match r1 with
        | c2 :: r2 =>
          if c2 = chRBrace then some (.obj [], r2)
          else jsonObjMembers fuel [] r1
        | [] => none
      else if c = '[' then
        let r1 := jsonSkipWS rest
        match r1 with
        | c2 :: r2 =>
          if c2 = ']' then some (.arr [], r2)
          else jsonArrElems fuel [] r1
        | [] => none
      else if c = 't' then
        if ['r', 'u', 'e'].isPrefixOf rest then some (.bool true, rest.drop 3)
        else none
      else if c = 'f' then
        if ['a', 'l', 's', 'e'].isPrefixOf rest then some (.bool false, rest.drop 4)
        else none
      else if c = 'n' then
        if ['u', 'l', 'l'].isPrefixOf rest then some (.null, rest.drop 3)
        else none
      else if c = '-' || c.isDigit then
        let (neg, cs2) := if c = '-' then (true, rest) else (false, c :: rest)
        match cs2 with
        | [] => none
        | d :: _ =>
          if !d.isDigit then none
          else
            let (ds, r) := takeDigits cs2
            if d = '0' && ds.length > 1 then none
            else
              match r with
              | '.' :: _ => none
              | 'e' :: _ => none
              | 'E' :: _ => none
              | _ =>
                let n : Int := Int.ofNat (digitsToNat ds)
                some (.num (if neg then -n else n), r)
      else none

/-- Members of a JSON object after the opening brace (at a position where a
key is expected). Duplicate keys follow Python: last wins, first position. -/
def jsonObjMembers (fuel : Nat) (acc : List (String × Json)) (cs : List Char) :
    Option (Json × List Char) :=
  match fuel with
  | 0 => none
  | fuel + 1 =>
    let cs := jsonSkipWS cs
    match cs with
    | c :: rest =>
      if c = chQuote then
        match jsonStrBody (rest.length + 1) rest [] with
        | some (k, r1) =>
          match jsonSkipWS r1 with
          | ':' :: r2 =>
            match jsonVal fuel r2 with
            | some (v, r3) =>
              let acc := jsonObjUpdate acc k v
              match jsonSkipWS r3 with
              | ',' :: r4 => jsonObjMembers fuel acc r4
              | c5 :: r5 =>
                if c5 = chRBrace then some (.obj acc, r5) else none
              | [] => none
            | none => none
          | _ => none
        | none => none
      else none
    | [] => none

/-- Elements of a JSON array after the opening bracket (at a position where a
value is expected). -/
def jsonArrElems (fuel : Nat) (acc : List Json) (cs : List Char) :
    Option (Json × List Char) :=
  match fuel with
  | 0 => none
  | fuel + 1 =>
    match jsonVal fuel cs with
    | some (v, r1) =>
      match jsonSkipWS r1 with
      | ',' :: r2 => jsonArrElems fuel (acc ++ [v]) r2
      | ']' :: r2 => some (.arr (acc ++ [v]), r2)
      | _ => none
    | none => none

end

/-- Model of Python `json.loads`: parse one value and require only
whitespace to remain. -/
def jsonLoads (s : String) : Option Json :=
  match jsonVal (2 * s.length + 4) s.data with
  | some (v, rest) =>
    match jsonSkipWS rest with
    | [] => some v
    | _ => none
  | none => none

/-- Index of the last occurrence of a character, if any. -/
def lastIdxOf (c : Char) (cs : List Char) : Option Nat :=
  match cs with
  | [] => none
  | c2 :: rest =>
    match lastIdxOf c rest with
    | some j => some (j + 1)
    | none => if c2 = c then some 0 else none

/-- Index of the first occurrence of a character, if any. -/
def firstIdxOf (c : Char) (cs : List Char) : Option Nat :=
  match cs with
  | [] => none
  | c2 :: rest =>
    if c2 = c then some 0
    else
      match firstIdxOf c rest with
      | some j => some (j + 1)
      | none => none

/-- Model of `re.search(r"\x7b.*\x7d", s, re.DOTALL)` from
`src/app/main.py:19`: the greedy match runs from the first opening brace
that has a closing brace after it to the last closing brace of the whole
string. Returns the matched substring. -/
def braceMatch (s : String) : Option String :=
  let cs := s.data
  match lastIdxOf chRBrace cs with
  | none => none
  | some j =>
    match firstIdxOf chLBrace (cs.take j) with
    | none => none
    | some i => some (String.mk ((cs.take (j + 1)).drop i))

/-- Embedding of `extract_json` from `src/app/main.py:13`: try a whole-string
parse; failing that, take the single greedy regex candidate between the first
opening and last closing brace and parse it, returning `none` on failure. -/
def extract_json (s : String) : Option Json :=
  match jsonLoads s with
  | some j => some j
  | none =>
    match braceMatch s with
    | some sub => jsonLoads sub
    | none => none

/-- Python `a or b` on JSON values: the first operand when truthy, else the
second. -/
def pyOr (a b : Json) : Json :=
  if pyTruthy a then a else b

/-- Default per-jurisdiction entry of the `check_parties` section
(`src/app/main.py:52`). -/
def default_party : Json := .obj [("verdict", .bool false)]

/-- Default per-jurisdiction entry of the `goods` section
(`src/app/main.py:59`). -/
def default_goods : Json := .obj [("verdict", .bool false), ("hs code", .str "N/A")]

/-- Initial `checks` structure built by the handler before any parsed content
is merged in (`src/app/main.py:50`). -/
def defaultChecks : Json := .obj
  [("check_parties", .obj [("us", default_party), ("uk", default_party), ("eu", default_party)]),
   ("route", .null),
   ("contract_type", .null),
   ("goods", .obj [("us", default_goods), ("uk", default_goods), ("eu", default_goods)]),
   ("explanation", .str "")]

/-- Model of `x.get(k) if isinstance(x, dict) else None`. -/
def dictGetOrNone (j : Json) (k : String) : Json :=
  match j with
  | .obj kvs => (jsonLookup kvs k).getD .null
  | _ => .null

/-- Embedding of the local `any_true` of the handler (`src/app/main.py:100`):
true when some value of the dictionary is itself a dictionary whose
`verdict` entry is the boolean `True`. -/
def any_true (j : Json) : Bool :=
  match j with
  | .obj kvs =>
    kvs.any (fun kv =>
      match kv.2 with
      | .obj v2 =>
        match jsonLookup v2 "verdict" with
        | some (.bool true) => true
        | _ => false
      | _ => false)
  | _ => false

/-- Strings appended to the explanation list for one candidate part
(`src/app/main.py:91`): the part must be a dictionary whose `explanation`
entry is a string that is non-blank after stripping. -/
def explanationOf (part : Json) : List String :=
  match part with
  | .obj kvs =>
    match jsonLookup kvs "explanation" with
    | some (.str e) => if !(pyStrip e).isEmpty then [pyStrip e] else []
    | _ => []
  | _ => []

/-- Embedding of the verdict/checks reconciliation of the
`/compliance/check` handler (`src/app/main.py:39-109`), as a function of the
upstream LightRAG reply `lr`: unwrap an optional `response` field, parse
string replies with `extract_json`, then merge recognised `check_parties`
(or `check parties`) and `goods` sections over the conservative defaults and
derive the verdict from the nested per-jurisdiction `verdict` booleans. -/
def compliance_reconcile (lr : Json) : String × Json :=
  let raw_response : Json :=
    match lr with
    | .obj kvs => (jsonLookup kvs "response").getD lr
    | _ => lr
  let parsed : Option Json :=
    match raw_response with
    | .obj _ => some raw_response
    | .arr _ => some raw_response
    | .str s => extract_json s
    | _ => none
  match parsed with
  | some (.obj pkvs) =>
    let src_checks : Json := (jsonLookup pkvs "checks").getD (.obj pkvs)
    let check_parties_src : Json :=
      match src_checks with
      | .obj skvs =>
        pyOr ((jsonLookup skvs "check_parties").getD .null)
          (pyOr ((jsonLookup skvs "check parties").getD .null) (.obj []))
      | _ => .obj []
    let goods_src : Json :=
      match src_checks with
      | .obj skvs => (jsonLookup skvs "goods").getD .null
      | _ => .obj []
    let cp : Json := .obj
      [("us", pyOr (dictGetOrNone check_parties_src "us") default_party),
       ("uk", pyOr (dictGetOrNone check_parties_src "uk") default_party),
       ("eu", pyOr (dictGetOrNone check_parties_src "eu") default_party)]
    let gd : Json := .obj
      [("us", pyOr (dictGetOrNone goods_src "us") default_goods),
       ("uk", pyOr (dictGetOrNone goods_src "uk") default_goods),
       ("eu", pyOr (dictGetOrNone goods_src "eu") default_goods)]
    let route : Json :=
      match src_checks with
      | .obj skvs => (jsonLookup skvs "route").getD .null
      | _ => .null
    let contract_type : Json :=
      match src_checks with
      | .obj skvs => (jsonLookup skvs "contract_type").getD .null
      | _ => .null
    let explanation : String :=
      match src_checks with
      | .obj _ =>
        let exps := explanationOf src_checks ++ explanationOf check_parties_src ++
          explanationOf goods_src
        if !exps.isEmpty then pyStrip (String.intercalate " " exps) else ""
      | _ => ""
    let verdict := if any_true cp || any_true gd then "flag" else "clear"
    (verdict, .obj
      [("check_parties", cp), ("route", route), ("contract_type", contract_type),
       ("goods", gd), ("explanation", .str explanation)])
  | _ => ("flag", defaultChecks)

/-- Outcome of the HTTP handler as visible to the caller. -/
inductive HandlerResult where
  | success (body : Json) : HandlerResult
  | httpError (code : Nat) (detail : String) : HandlerResult

/-- Pydantic validation of one required `str` field of `ComplianceResponse`
(`src/app/models.py:34`): the keyword must be supplied and be a string. -/
def requiredStrField (kwargs : List (String × Json)) (k : String) : Bool :=
  match jsonLookup kwargs k with
  | some (.str _) => true
  | _ => false

/-- Pydantic validation of the `checks : Dict[str, List[Dict[str, Any]]]`
field of `ComplianceResponse` (`src/app/models.py:37`): required, a mapping
whose values are lists of mappings. -/
def checksFieldOk (kwargs : List (String × Json)) : Bool :=
  match jsonLookup kwargs "checks" with
  | some (.obj kvs) =>
    kvs.all (fun kv =>
      match kv.2 with
      | .arr xs =>
        xs.all (fun x =>
          match x with
          | .obj _ => true
          | _ => false)
      | _ => false)
  | _ => false

/-- Pydantic validation of the optional `parsed_json` field of
`ComplianceResponse` (`src/app/models.py:39`). -/
def parsedJsonFieldOk (kwargs : List (String × Json)) : Bool :=
  match jsonLookup kwargs "parsed_json" with
  | none => true
  | some .null => true
  | some (.obj _) => true
  | _ => false

/-- Pydantic validation of a `ComplianceResponse(**kwargs)` construction
against the model declared in `src/app/models.py:34-39`: `verdict`,
`risk_level` and `lightrag_response` are required strings, `checks` is a
required mapping from string to list of mappings, `parsed_json` is an
optional mapping. -/
def validComplianceResponse (kwargs : List (String × Json)) : Bool :=
  requiredStrField kwargs "verdict" && requiredStrField kwargs "risk_level" &&
  checksFieldOk kwargs && requiredStrField kwargs "lightrag_response" &&
  parsedJsonFieldOk kwargs

/-- Embedding of the response-construction tail of the `/compliance/check`
handler (`src/app/main.py:111-134`): the handler supplies only `verdict` and
`checks` to `ComplianceResponse`; a pydantic validation failure raises inside
the `try` block and the generic `except` re-raises it as an HTTP 500. -/
def compliance_check_response (lr : Json) : HandlerResult :=
  let r := compliance_reconcile lr
  let kwargs := [("verdict", Json.str r.1), ("checks", r.2)]
  if validComplianceResponse kwargs then .success (.obj kwargs)
  else .httpError 500 "validation error for ComplianceResponse"

/-- Values of a flat inbound payload as accepted by `from_flat_payload`
(`src/app/query_builder.py:87`): `None`, strings, or lists of values. -/
inductive FlatVal where
  | none : FlatVal
  | str (s : String) : FlatVal
  | list (xs : List FlatVal) : FlatVal

/-- Python `repr` of a flat payload value, used when a list value is
stringified. -/
def reprFlat : FlatVal → String
  | .none => "None"
  | .str s => "\x27" ++ s ++ "\x27"
  | .list xs => "[" ++ String.intercalate ", " (xs.attach.map (fun v => reprFlat v.1)) ++ "]"
decreasing_by
  have := List.sizeOf_lt_of_mem v.2
  simp only [FlatVal.list.sizeOf_spec]
  omega

/-- Model of Python `str(v)` on flat payload values. -/
def pyStrOfFlat : FlatVal → String
  | .none => "None"
  | .str s => s
  | .list xs => "[" ++ String.intercalate ", " (xs.map reprFlat) ++ "]"

/-- Normalised string value of one flat payload entry
(`src/app/query_builder.py:100-106`): `None` becomes the empty string, list
values are joined with `", "` after dropping `None` elements, any other
value is stringified. -/
def normFlatValue (v : FlatVal) : String :=
  match v with
  | .none => ""
  | .list xs =>
    String.intercalate ", "
      ((xs.filter (fun x => match x with | .none => false | _ => true)).map pyStrOfFlat)
  | _ => pyStrOfFlat v

/-- Lookup in the normalised payload association list (Python dict keyed by
string). -/
def payloadGet (p : List (String × String)) (k : String) : Option String :=
  match p with
  | [] => none
  | (k2, v) :: rest => if k2 = k then some v else payloadGet rest k

/-- Update of the normalised payload: an existing key keeps its position, a
new key is appended (Python dict insertion order). -/
def payloadSet (p : List (String × String)) (k : String) (v : String) :
    List (String × String) :=
  match p with
  | [] => [(k, v)]
  | (k2, v2) :: rest =>
    if k2 = k then (k2, v) :: rest else (k2, v2) :: payloadSet rest k v

/-- Merge step of `from_flat_payload` for one raw key/value pair
(`src/app/query_builder.py:96-112`): normalise the key to upper case with
underscores; when the key already holds a non-empty value and the new value
is non-empty and not already a substring, append it after `", "`, otherwise
overwrite. -/
def flatInsert (p : List (String × String)) (rawKey : String) (rawValue : FlatVal) :
    List (String × String) :=
  let key := pyReplace (pyUpper (pyStrip rawKey)) " " "_"
  let norm_value := normFlatValue rawValue
  match payloadGet p key with
  | some existing =>
    if !existing.isEmpty && !norm_value.isEmpty then
      if !pyInStr norm_value existing then
        payloadSet p key (existing ++ ", " ++ norm_value)
      else p
    else payloadSet p key norm_value
  | none => payloadSet p key norm_value

/-- Folding of one synonym bank-name field into `BIK_SWIFT`
(`src/app/query_builder.py:114-130`); `withElse` distinguishes the
counterparty branch (which guards the concatenation on a non-empty stripped
existing value) from the correspondent branch (which always concatenates). -/
def foldBank (p : List (String × String)) (field : String) (withElse : Bool) :
    List (String × String) :=
  let bank := pyStrip ((payloadGet p field).getD "")
  if !bank.isEmpty then
    let cur := (payloadGet p "BIK_SWIFT").getD ""
    if !cur.isEmpty then
      let existing := pyStrip cur
      if !pyInStr bank existing then
        if withElse then
          payloadSet p "BIK_SWIFT"
            (if !existing.isEmpty then existing ++ ", " ++ bank else bank)
        else payloadSet p "BIK_SWIFT" (existing ++ ", " ++ bank)
      else p
    else payloadSet p "BIK_SWIFT" bank
  else p

/-- Embedding of `QueryBuilder.from_flat_payload`
(`src/app/query_builder.py:87-132`): normalise every key/value pair in
order, then fold the counterparty and correspondent bank-name fields into
`BIK_SWIFT`. -/
def from_flat_payload (payload : List (String × FlatVal)) : List (String × String) :=
  let normalized := payload.foldl (fun p kv => flatInsert p kv.1 kv.2) []
  let p1 := foldBank normalized "COUNTERPARTY_BANK_NAME" true
  foldBank p1 "CORRESPONDENT_BANK_NAME" false

/-- Split of a character list at every occurrence of a separator character,
modelling Python `str.split(sep)`: always returns at least one group. -/
def splitOnChar (sep : Char) (cs : List Char) : List (List Char) :=
  match cs with
  | [] => [[]]
  | c :: rest =>
    let r := splitOnChar sep rest
    if c = sep then [] :: r
    else
      match r with
      | g :: gs => (c :: g) :: gs
      | [] => [[c]]

/-- Route segments as computed by `build_query`
(`src/app/query_builder.py:146`): split on hyphens, strip and upper-case
each part. -/
def routeParts (route : String) : List String :=
  (splitOnChar '-' route.data).map (fun g => pyUpper (String.mk (pyStripList g)))

/-- Interior of a list, modelling the Python slice `parts[1:-1]`. -/
def pyInterior (l : List String) : List String :=
  (l.drop 1).dropLast

/-- Embedding of the `kz_as_transit` computation of `build_query`
(`src/app/query_builder.py:144-150`): the flag is set when the route
contains a hyphen and either `KZ` occurs strictly between the first and last
of more than two segments, or (the `elif` branch) `KZ` occurs among at least
two segments. -/
def kz_as_transit (route : String) : Bool :=
  if !route.isEmpty && route.data.contains '-' then
    let parts := routeParts route
    if parts.length > 2 && (pyInterior parts).contains "KZ" then true
    else if parts.length ≥ 2 && parts.contains "KZ" then true
    else false
  else false

/-- Characterisation of the transit flag demanded by the specification
sentence behind claim C6, stated in the spec's own words: at least three
segments with the home jurisdiction code strictly between the first and the
last. -/
def spec_transit (route : String) : Bool :=
  let parts := routeParts route
  parts.length ≥ 3 && (pyInterior parts).contains "KZ"

/-- Legal entity forms of `AdvancedTextNormalizer.LEGAL_FORMS`
(`src/app/normalizer.py:27`), in source order; Python iterates this set in an
unspecified order, which the model fixes to the order the literal is
written in. -/
def LEGAL_FORMS : List String :=
  ["ПАО", "АО", "ООО", "ЗАО", "ОАО", "ТОО", "ИП", "ТДО", "НАО",
   "LLC", "Ltd", "Limited", "Co", "Corp", "Corporation", "Company",
   "Inc", "Incorporated", "PJSC", "JSC", "OJSC", "PLC", "LLP", "LP",
   "S.A.", "SA", "GmbH", "AG", "SpA", "SPA", "BV", "NV", "Oy",
   "S.r.l", "SRL", "SARL", "S.L.", "SL",
   "Pte", "Pty", "Sdn", "Bhd", "K.K.", "G.K."]

/-- Bank keywords of `AdvancedTextNormalizer.BANK_KEYWORDS`
(`src/app/normalizer.py:40`), in dict insertion order: English, Russian,
miscellaneous. -/
def BANK_KEYWORDS : List String :=
  ["Bank", "Banking", "Financial", "Finance", "Credit", "Savings",
   "Банк", "Банка", "Кредит", "Финанс",
   "Branch", "Филиал", "Отделение", "Head Office", "HQ"]

/-- Location keywords of `AdvancedTextNormalizer.LOCATION_KEYWORDS`
(`src/app/normalizer.py:46`), in source list order. -/
def LOCATION_KEYWORDS : List String :=
  ["в г.", "г.", "город", "city", "Moscow", "Moskva", "St. Petersburg", "SPb",
   "Astana", "Almaty", "Алматы", "Астана", "Москва", "Санкт-Петербург"]

/-- Word characters for the regular-expression boundary `\b`, modelling
Python Unicode `\w` restricted to the alphabets of this code base: ASCII
letters and digits, underscore, and the Cyrillic block. -/
def isWordChar (c : Char) : Bool :=
  (48 ≤ c.toNat && c.toNat ≤ 57) || (65 ≤ c.toNat && c.toNat ≤ 90) ||
  (97 ≤ c.toNat && c.toNat ≤ 122) || c = '_' ||
  (0x400 ≤ c.toNat && c.toNat ≤ 0x4FF)

/-- Case-insensitive literal prefix match, returning the remainder. -/
def stripPfxCI : List Char → List Char → Option (List Char)
  | [], s => some s
  | _ :: _, [] => none
  | p :: ps, c :: cs => if charLower p = charLower c then stripPfxCI ps cs else none

/-- One attempted match of `\b<pat>\b` (optionally followed by `\.?`) at the
current position, given whether the previous character of the original
string is a word character. On success returns the remainder and whether the
last consumed character is a word character. -/
def tryBounded (pat : List Char) (dot : Bool) (prevWord : Bool) (s : List Char) :
    Option (List Char × Bool) :=
  match pat with
  | [] => none
  | p0 :: _ =>
    match stripPfxCI pat s with
    | none => none
    | some rem =>
      let fw := isWordChar p0
      let lw := isWordChar (pat.getLastD p0)
      let nw := match rem with | [] => false | n :: _ => isWordChar n
      if (prevWord != fw) && (lw != nw) then
        if dot then
          match rem with
          | '.' :: r2 => some (r2, false)
          | _ => some (rem, lw)
        else some (rem, lw)
      else none

/-- Scanning worker for `reSubBounded`. -/
def reSubBoundedAux (pat : List Char) (dot : Bool) :
    Nat → Bool → List Char → List Char
  | 0, _, s => s
  | fuel + 1, prevWord, s =>
    match s with
    | [] => []
    | c :: rest =>
      match tryBounded pat dot prevWord s with
      | some (rem, lastWord) => reSubBoundedAux pat dot fuel lastWord rem
      | none => c :: reSubBoundedAux pat dot fuel (isWordChar c) rest

/-- Model of `re.sub(rf"\b{re.escape(pat)}\b" + ("\.?" when `dot`), "", s,
flags=re.IGNORECASE)`: delete every non-overlapping word-bounded,
case-insensitive occurrence of the literal, scanning left to right. -/
def reSubBounded (pat : List Char) (dot : Bool) (s : List Char) : List Char :=
  reSubBoundedAux pat dot s.length false s

/-- Environment of the external libraries used by
`AdvancedTextNormalizer`: the optional `cleanco.basename` (present exactly
when the import at `src/app/normalizer.py:14` succeeded) and the `unidecode`
transliteration function. Theorems about the generator hold for every
environment. -/
structure NormalizerEnv where
  cleancoBasename : Option (String → String)
  translit : String → String

/-- Transliteration table modelling the external `unidecode` library on the
Russian Cyrillic alphabet (identity elsewhere); only the Cyrillic rows are
exercised by this development. -/
def unidecodeChar (c : Char) : String :=
  if c = 'а' then "a" else if c = 'б' then "b" else if c = 'в' then "v"
  else if c = 'г' then "g" else if c = 'д' then "d" else if c = 'е' then "e"
  else if c = 'ж' then "zh" else if c = 'з' then "z" else if c = 'и' then "i"
  else if c = 'й' then "i" else if c = 'к' then "k" else if c = 'л' then "l"
  else if c = 'м' then "m" else if c = 'н' then "n" else if c = 'о' then "o"
  else if c = 'п' then "p" else if c = 'р' then "r" else if c = 'с' then "s"
  else if c = 'т' then "t" else if c = 'у' then "u" else if c = 'ф' then "f"
  else if c = 'х' then "kh" else if c = 'ц' then "ts" else if c = 'ч' then "ch"
  else if c = 'ш' then "sh" else if c = 'щ' then "shch" else if c = 'ъ' then ""
  else if c = 'ы' then "y" else if c = 'ь' then "" else if c = 'э' then "e"
  else if c = 'ю' then "iu" else if c = 'я' then "ia" else if c = 'ё' then "e"
  else if c = 'А' then "A" else if c = 'Б' then "B" else if c = 'В' then "V"
  else if c = 'Г' then "G" else if c = 'Д' then "D" else if c = 'Е' then "E"
  else if c = 'Ж' then "Zh" else if c = 'З' then "Z" else if c = 'И' then "I"
  else if c = 'Й' then "I" else if c = 'К' then "K" else if c = 'Л' then "L"
  else if c = 'М' then "M" else if c = 'Н' then "N" else if c = 'О' then "O"
  else if c = 'П' then "P" else if c = 'Р' then "R" else if c = 'С' then "S"
  else if c = 'Т' then "T" else if c = 'У' then "U" else if c = 'Ф' then "F"
  else if c = 'Х' then "Kh" else if c = 'Ц' then "Ts" else if c = 'Ч' then "Ch"
  else if c = 'Ш' then "Sh" else if c = 'Щ' then "Shch" else if c = 'Ъ' then ""
  else if c = 'Ы' then "Y" else if c = 'Ь' then "" else if c = 'Э' then "E"
  else if c = 'Ю' then "Iu" else if c = 'Я' then "Ia" else if c = 'Ё' then "E"
  else String.mk [c]

/-- Model of `unidecode` on strings. -/
def unidecodeModel (s : String) : String :=
  String.join (s.data.map unidecodeChar)

/-- The environment in which neither optional library is installed and
`unidecode` behaves as `unidecodeModel`. -/
def defaultEnv : NormalizerEnv :=
  { cleancoBasename := none, translit := unidecodeModel }

/-- Needle of the string replacement on `src/app/normalizer.py:62`. In the
source that line reads `name.replace(''', "'").replace(''', "'")`, in which
`'''` opens a Python triple-quoted string, so the statement is a single
`str.replace` whose needle is the fifteen-character literal between the two
triple quotes. -/
def cleanReplaceNeedle : String := ", \"\x27\").replace("

/-- Embedding of `AdvancedTextNormalizer.clean_name`
(`src/app/normalizer.py:51`): collapse whitespace runs, replace guillemets
by straight double quotes, apply the (degenerate) replacement of
line 62, replace backticks by straight single quotes, and strip. -/
def clean_name (name : String) : String :=
  if name.isEmpty then ""
  else
    let s1 := collapseWS name
    let s2 := pyReplace (pyReplace s1 (String.mk [chLaquo]) (String.mk [chQuote]))
      (String.mk [chRaquo]) (String.mk [chQuote])
    let s3 := pyReplace s2 cleanReplaceNeedle (String.mk [chApos])
    let s4 := pyReplace s3 (String.mk [chBacktick]) (String.mk [chApos])
    pyStrip s4

/-- Embedding of `AdvancedTextNormalizer.remove_legal_forms`
(`src/app/normalizer.py:67`): with `cleanco` present, its `basename` result
when non-empty (else the input); otherwise the fallback that deletes every
word-bounded legal form (with optional trailing dot) and collapses
whitespace. -/
def remove_legal_forms (env : NormalizerEnv) (name : String) : String :=
  match env.cleancoBasename with
  | some f =>
    let c := f name
    if !c.isEmpty then c else name
  | none =>
    let r := LEGAL_FORMS.foldl
      (fun acc form => String.mk (reSubBounded form.data true acc.data)) name
    pyStrip (collapseWS r)

/-- Removal worker for the parenthesis regex `\([^)]*\)` of
`remove_location_info` (`src/app/normalizer.py:177`). -/
def removeParensAux : Nat → List Char → List Char
  | 0, s => s
  | _ + 1, [] => []
  | fuel + 1, c :: rest =>
    if c = '(' then
      let inner := rest.takeWhile (fun d => d != ')')
      match rest.drop inner.length with
      | ')' :: r2 => removeParensAux fuel r2
      | _ => c :: removeParensAux fuel rest
    else c :: removeParensAux fuel rest

/-- Model of `re.sub(r"\([^)]*\)", "", s)`. -/
def removeParens (s : String) : String :=
  String.mk (removeParensAux s.length s.data)

/-- Embedding of `AdvancedTextNormalizer.remove_location_info`
(`src/app/normalizer.py:169`): delete every word-bounded location keyword,
delete parenthesised chunks, collapse whitespace and strip. -/
def remove_location_info (name : String) : String :=
  let r := LOCATION_KEYWORDS.foldl
    (fun acc loc => String.mk (reSubBounded loc.data false acc.data)) name
  pyStrip (collapseWS (removeParens r))

/-- Opening quote characters of the strategy-1 regex of
`extract_core_name` (`src/app/normalizer.py:89`). -/
def quoteOpen (c : Char) : Bool :=
  c = chQuote || c = chApos || c = chLaquo

/-- Characters excluded from the quoted-content class of the same regex
(which coincide with its closing quote characters). -/
def quoteStop (c : Char) : Bool :=
  c = chQuote || c = chApos || c = chRaquo

/-- Strategy 1 of `extract_core_name`: captures of
`re.findall(r"[quote-open]([^quote-stop]+)[quote-close]", name)`, scanning
left to right without overlap. -/
def findQuoted : Nat → List Char → List String
  | 0, _ => []
  | _ + 1, [] => []
  | fuel + 1, c :: rest =>
    if quoteOpen c then
      let run := rest.takeWhile (fun d => !quoteStop d)
      match rest.drop run.length with
      | d :: r2 =>
        if quoteStop d && !run.isEmpty then String.mk run :: findQuoted fuel r2
        else findQuoted fuel rest
      | [] => findQuoted fuel rest
    else findQuoted fuel rest

/-- First character class `[A-ZА-ЯЁ]` of the capture groups of
`extract_core_name`, under `re.IGNORECASE` (so both cases match). -/
def capLetter (c : Char) : Bool :=
  (65 ≤ c.toNat && c.toNat ≤ 90) || (97 ≤ c.toNat && c.toNat ≤ 122) ||
  (0x410 ≤ c.toNat && c.toNat ≤ 0x44F) || c.toNat = 0x401 || c.toNat = 0x451

/-- Continuation class `[^\s,]` of the capture groups. -/
def capRunChar (c : Char) : Bool :=
  !pyIsSpaceChar c && c != ','

/-- Match of one capture word `[A-ZА-ЯЁ][^\s,]+` (initial letter plus a
non-empty greedy run), returning the word and the remainder. -/
def capFirstWord (s : List Char) : Option (List Char × List Char) :=
  match s with
  | [] => none
  | c :: rest =>
    if capLetter c then
      let run := rest.takeWhile capRunChar
      if run.isEmpty then none
      else some (c :: run, rest.drop run.length)
    else none

/-- Greedy expansion `(?:\s+[A-ZА-ЯЁ][^\s,]+)*` after an initial capture
word: returns the successive capture states `(capture so far, remainder)`
from zero expansions up to the greedy maximum, in that order. -/
def capStates : Nat → List Char → List Char → List (List Char × List Char)
  | 0, acc, s => [(acc, s)]
  | fuel + 1, acc, s =>
    let ws := s.takeWhile pyIsSpaceChar
    if ws.isEmpty then [(acc, s)]
    else
      match capFirstWord (s.drop ws.length) with
      | some (w, r) => (acc, s) :: capStates fuel (acc ++ ws ++ w) r
      | none => [(acc, s)]

/-- Greedy (maximal) capture after an initial capture word, as used by the
strategy-2 pattern where nothing follows the capture group. -/
def capGreedy (s : List Char) : Option (List Char × List Char) :=
  match capFirstWord s with
  | none => none
  | some (w, r) => some ((capStates r.length w r).getLastD (w, r))

/-- Strategy 2 of `extract_core_name` (`src/app/normalizer.py:95`):
captures of `re.findall(rf"\b{form}\b\.?\s+([A-ZА-ЯЁ][^\s,]+(?:\s+[A-ZА-ЯЁ][^\s,]+)*)", name, re.IGNORECASE)`. -/
def findAfterForm (form : List Char) : Nat → Bool → List Char → List String
  | 0, _, _ => []
  | _ + 1, _, [] => []
  | fuel + 1, prevWord, s =>
    let fail := fun (_ : Unit) =>
      match s with
      | c :: rest => findAfterForm form fuel (isWordChar c) rest
      | [] => []
    match tryBounded form true prevWord s with
    | some (rem, _) =>
      let ws := rem.takeWhile pyIsSpaceChar
      if ws.isEmpty then fail ()
      else
        match capGreedy (rem.drop ws.length) with
        | some (cap, r2) =>
          String.mk cap :: findAfterForm form fuel (isWordChar (cap.getLastD ' ')) r2
        | none => fail ()
    | none => fail ()

/-- Match of `\s+\b<form>\b` at the given position (used as the suffix of
the strategy-3 pattern), returning the remainder after the form. -/
def wsThenForm (form : List Char) (s : List Char) : Option (List Char) :=
  let ws := s.takeWhile pyIsSpaceChar
  if ws.isEmpty then none
  else
    match stripPfxCI form (s.drop ws.length) with
    | none => none
    | some rem =>
      let lw := isWordChar (form.getLastD ' ')
      let nw := match rem with | [] => false | n :: _ => isWordChar n
      if lw != nw then some rem else none

/-- Backtracking over the capture states of the strategy-3 pattern: try the
greedy state first, then shorter captures, looking for `\s+\b<form>\b` to
follow; returns the successful capture and the remainder after the form. -/
def capThenForm (form : List Char) (s : List Char) : Option (List Char × List Char) :=
  match capFirstWord s with
  | none => none
  | some (w, r) =>
    ((capStates r.length w r).reverse.findSome?
      (fun st =>
        match wsThenForm form st.2 with
        | some rem => some (st.1, rem)
        | none => none))

/-- Strategy 3 of `extract_core_name` (`src/app/normalizer.py:102`):
captures of `re.findall(rf"([A-ZА-ЯЁ][^\s,]+(?:\s+[A-ZА-ЯЁ][^\s,]+)*)\s+\b{form}\b", name, re.IGNORECASE)`. -/
def findBeforeForm (form : List Char) : Nat → List Char → List String
  | 0, _ => []
  | _ + 1, [] => []
  | fuel + 1, s =>
    match capThenForm form s with
    | some (cap, rem) => String.mk cap :: findBeforeForm form fuel rem
    | none =>
      match s with
      | _ :: rest => findBeforeForm form fuel rest
      | [] => []

/-- Embedding of `AdvancedTextNormalizer.extract_core_name`
(`src/app/normalizer.py:84`): quoted substrings, substrings after a legal
form, and substrings before a legal form, each stripped and kept when longer
than two characters. -/
def extract_core_name (name : String) : List String :=
  let cs := name.data
  let keep := fun (l : List String) =>
    (l.map pyStrip).filter (fun q => q.length > 2)
  keep (findQuoted cs.length cs) ++
  LEGAL_FORMS.flatMap (fun form => keep (findAfterForm form.data cs.length false cs)) ++
  LEGAL_FORMS.flatMap (fun form => keep (findBeforeForm form.data cs.length cs))

/-- Embedding of `AdvancedTextNormalizer.transliteration_variants`
(`src/app/normalizer.py:108`): the input plus its transliteration when they
differ. -/
def transliteration_variants (env : NormalizerEnv) (name : String) : List String :=
  name :: (if env.translit name != name then [env.translit name] else [])

/-- Model of Python `str.capitalize()`: first character upper-cased, the
rest lower-cased. -/
def pyCapitalize (s : String) : String :=
  match s.data with
  | [] => ""
  | c :: rest => String.mk (charUpper c :: rest.map charLower)

/-- Embedding of `AdvancedTextNormalizer.normalize_spacing`
(`src/app/normalizer.py:151`): the input, its no-space form when longer than
three characters, and its capitalised-concatenation form when the input
contains a space and the result is longer than three characters. -/
def normalize_spacing (name : String) : List String :=
  let no_space := pyReplace name " " ""
  let l1 := name :: (if no_space.length > 3 then [no_space] else [])
  if name.data.contains ' ' then
    let camel := String.join ((pySplitWS name).map pyCapitalize)
    l1 ++ (if camel.length > 3 then [camel] else [])
  else l1

/-- Bank-keyword stripping of step 7 of `generate_all_variants`
(`src/app/normalizer.py:227`): delete every word-bounded bank keyword
(case-insensitively, in dict order) and collapse whitespace. -/
def bankStripKeywords (v : String) : String :=
  pyStrip (collapseWS (String.mk (BANK_KEYWORDS.foldl
    (fun acc kw => reSubBounded kw.data false acc) v.data)))

/-- Final filter of `generate_all_variants` (`src/app/normalizer.py:240`):
non-empty, longer than two characters, not whitespace-only and not a bare
legal-form token. -/
def variantFilter (v : String) : Bool :=
  !v.isEmpty && v.length > 2 && !pyIsSpace v && !LEGAL_FORMS.contains v

/-- Sort order of `generate_all_variants` (`src/app/normalizer.py:246`): by
descending length, then lexicographically on the lower-cased string (the
sort key `(-len(x), x.lower())`). -/
def variantRel (a b : String) : Prop :=
  b.length < a.length ∨ (a.length = b.length ∧ pyLower a ≤ pyLower b)

instance : DecidableRel variantRel := fun _ _ =>
  inferInstanceAs (Decidable (_ ∨ _))

instance : IsTotal String variantRel where
  total a b := by
    rcases Nat.lt_trichotomy b.length a.length with h | h | h
    · exact Or.inl (Or.inl h)
    · rcases le_total (pyLower a) (pyLower b) with h2 | h2
      · exact Or.inl (Or.inr ⟨h.symm, h2⟩)
      · exact Or.inr (Or.inr ⟨h, h2⟩)
    · exact Or.inr (Or.inl h)

instance : IsTrans String variantRel where
  trans _ _ _ hab hbc := by
    rcases hab with h1 | ⟨e1, l1⟩ <;> rcases hbc with h2 | ⟨e2, l2⟩
    · exact Or.inl (h2.trans h1)
    · exact Or.inl (e2 ▸ h1)
    · exact Or.inl (e1 ▸ h2)
    · exact Or.inr ⟨e1.trans e2, l1.trans l2⟩

/-- Embedding of `AdvancedTextNormalizer.generate_all_variants`
(`src/app/normalizer.py:181`): clean, strip legal forms, strip locations,
extract core names, transliterate every variant so far, add spacing variants
of every variant so far, optionally strip bank keywords, then filter,
deduplicate and sort. The accumulated collection is a Python set; the model
keeps an insertion-ordered list and deduplicates before the final sort,
which is the same collection. -/
def generate_all_variants (env : NormalizerEnv) (name : String)
    (entity_type : String) : List String :=
  if name.isEmpty then []
  else
    let clean := clean_name name
    let l1 := [clean]
    let no_legal := remove_legal_forms env clean
    let l2 := l1 ++ (if !no_legal.isEmpty then [no_legal] else [])
    let no_location := remove_location_info clean
    let l3 := l2 ++ (if !no_location.isEmpty then [no_location] else [])
    let l4 := l3 ++ extract_core_name clean
    let l5 := l4 ++ l4.flatMap (transliteration_variants env)
    let l6 := l5 ++ l5.flatMap normalize_spacing
    let l7 :=
      if entity_type = "bank" then
        l6 ++ ((l6.map bankStripKeywords).filter
          (fun c => !c.isEmpty && c.length > 2))
      else l6
    let filtered := (l7.filter variantFilter).dedup
    List.insertionSort variantRel filtered

/-- Auxiliary: `splitOnChar` produces one more group than there are
separators. -/
theorem splitOnChar_length (sep : Char) (cs : List Char) :
    (splitOnChar sep cs).length = cs.count sep + 1 := by
  induction cs with
  | nil => rfl
  | cons c rest ih =>
    by_cases h : c = sep
    · simpa [splitOnChar, h, List.count_cons] using ih
    · cases hq : splitOnChar sep rest with
      | nil => rw [hq] at ih; simp at ih
      | cons g gs =>
        rw [hq] at ih
        simp [splitOnChar, h, hq, List.count_cons] at ih ⊢
        omega

/-- Auxiliary: the interior slice is a sublist of the whole list. -/
theorem pyInterior_subset (l : List String) : pyInterior l ⊆ l := by
  intro a ha
  exact List.drop_subset 1 l (List.dropLast_subset _ ha)

/-- C1 (confirmed): for every upstream reply, hence for every request that
reaches response construction, building `ComplianceResponse` fails pydantic
validation — the model requires `risk_level` and `lightrag_response` strings
and a `checks` mapping to lists, while the handler supplies only `verdict`
and a `checks` mapping to objects — so the handler's generic exception
branch reports an HTTP 500 internal error instead of a verdict. -/
theorem C1_handler_always_http500 (lr : Json) :
    compliance_check_response lr =
      HandlerResult.httpError 500 "validation error for ComplianceResponse" := rfl

/-- Witness for C1 at a concrete upstream reply. -/
theorem C1_handler_always_http500_witness :
    compliance_check_response (Json.str "ok") =
      HandlerResult.httpError 500 "validation error for ComplianceResponse" :=
  C1_handler_always_http500 (Json.str "ok")

/-- C2 counterexample: reconciling the upstream reply `{"verdict": "flag"}`
yields the verdict `"clear"`, not the claimed `"flag"` (and the handler
computes no risk level at all). -/
theorem C2_counterexample :
    (compliance_reconcile (Json.obj [("verdict", Json.str "flag")])).1 = "clear" ∧
    (compliance_reconcile (Json.obj [("verdict", Json.str "flag")])).1 ≠ "flag" :=
  ⟨rfl, by decide⟩

/-- C2 (corrected): the reconciliation ignores a top-level `verdict` field
entirely; for every value `v` of that field, a reply consisting only of
`{"verdict": v}` reconciles to `"clear"`, because the verdict is derived
solely from the nested per-jurisdiction booleans, all of which default to
false. No risk level is computed anywhere. -/
theorem C2_top_level_verdict_ignored (v : String) :
    (compliance_reconcile (Json.obj [("verdict", Json.str v)])).1 = "clear" := rfl

/-- Witness for C2 at a concrete top-level verdict value. -/
theorem C2_top_level_verdict_ignored_witness :
    (compliance_reconcile (Json.obj [("verdict", Json.str "clear")])).1 = "clear" :=
  C2_top_level_verdict_ignored "clear"

/-- C3 counterexample: an upstream reply string with explicit "no sanctions"
phrasing and no JSON reconciles to the verdict `"flag"`, not the claimed
`"clear"`; the second conjunct records that the phrasing is present in the
lower-cased text. -/
theorem C3_counterexample :
    (compliance_reconcile
      (Json.str "there are no sanctions found for this transaction")).1 = "flag" ∧
    pyInStr "no sanctions"
      (pyLower "there are no sanctions found for this transaction") = true :=
  ⟨rfl, rfl⟩

/-- C3 (corrected): the handler performs no plain-text scan at all; for
every upstream reply string in which `extract_json` finds no JSON, the
result is the conservative default — verdict `"flag"` with the default
checks — regardless of any "no sanctions" phrasing, and no risk level is
produced. -/
theorem C3_unparseable_reply_stays_flag (s : String)
    (h : extract_json s = none) :
    compliance_reconcile (Json.str s) = ("flag", defaultChecks) := by
  simp only [compliance_reconcile, h]

/-- Witness for C3: the spec's own scenario string contains no JSON and
reconciles to the conservative default. -/
theorem C3_unparseable_reply_stays_flag_witness :
    extract_json "no sanctions found for this transaction" = none ∧
    compliance_reconcile (Json.str "no sanctions found for this transaction") =
      ("flag", defaultChecks) :=
  ⟨rfl, C3_unparseable_reply_stays_flag "no sanctions found for this transaction" rfl⟩

/-- C4 counterexample: the party-screening section keyed `proverka_storon`
is not recognised by the handler (which looks up only `check_parties`,
`check parties` and `goods`), so the spec's scenario reconciles to
`"clear"`, not the claimed `"flag"`. -/
theorem C4_counterexample :
    (compliance_reconcile (Json.obj [("proverka_storon", Json.obj
      [("us", Json.obj [("verdict", Json.bool true)]),
       ("uk", Json.obj [("verdict", Json.bool false)]),
       ("eu", Json.obj [("verdict", Json.bool false)])])])).1 = "clear" ∧
    (compliance_reconcile (Json.obj [("proverka_storon", Json.obj
      [("us", Json.obj [("verdict", Json.bool true)]),
       ("uk", Json.obj [("verdict", Json.bool false)]),
       ("eu", Json.obj [("verdict", Json.bool false)])])])).1 ≠ "flag" :=
  ⟨rfl, by decide⟩

/-- C4 (corrected): for per-jurisdiction verdict booleans grouped under the
recognised section names `check_parties` (party screening) and `goods`
(goods screening), the final verdict is `"flag"` exactly when some boolean
is true, and `"clear"` otherwise. -/
theorem C4_any_boolean_flags (b1 b2 b3 b4 b5 b6 : Bool) :
    (compliance_reconcile (Json.obj
      [("check_parties", Json.obj
        [("us", Json.obj [("verdict", Json.bool b1)]),
         ("uk", Json.obj [("verdict", Json.bool b2)]),
         ("eu", Json.obj [("verdict", Json.bool b3)])]),
       ("goods", Json.obj
        [("us", Json.obj [("verdict", Json.bool b4)]),
         ("uk", Json.obj [("verdict", Json.bool b5)]),
         ("eu", Json.obj [("verdict", Json.bool b6)])])])).1 =
      (if b1 || b2 || b3 || b4 || b5 || b6 then "flag" else "clear") := by
  cases b1 <;> cases b2 <;> cases b3 <;> cases b4 <;> cases b5 <;> cases b6 <;> rfl

/-- Witness for C4 at one concrete boolean assignment (a single `us` party
hit flags the transaction). -/
theorem C4_any_boolean_flags_witness :
    (compliance_reconcile (Json.obj
      [("check_parties", Json.obj
        [("us", Json.obj [("verdict", Json.bool true)]),
         ("uk", Json.obj [("verdict", Json.bool false)]),
         ("eu", Json.obj [("verdict", Json.bool false)])]),
       ("goods", Json.obj
        [("us", Json.obj [("verdict", Json.bool false)]),
         ("uk", Json.obj [("verdict", Json.bool false)]),
         ("eu", Json.obj [("verdict", Json.bool false)])])])).1 = "flag" :=
  (C4_any_boolean_flags true false false false false false).trans (by decide)

/-- C5 counterexample: on an input whose greedy first-to-last-brace
candidate fails to parse, `extract_json` returns `null` even though a later
brace-balanced candidate parses — so the claimed continue-from-the-next-brace
rescanning does not happen. -/
theorem C5_counterexample :
    extract_json "\x7b\"bad\": json\x7d \x7b\"a\":1\x7d" = none ∧
    jsonLoads "\x7b\"a\":1\x7d" = some (Json.obj [("a", Json.num 1)]) :=
  ⟨rfl, rfl⟩

/-- C5 (corrected): `extract_json` attempts a whole-string parse, then
parses the single greedy regex candidate running from the first opening
brace to the last closing brace, returning `null` on failure without
rescanning; it never raises. The spec's concrete examples all hold. -/
theorem C5_extract_json_examples :
    extract_json "prefix text \x7b\"a\":1\x7d suffix" =
      some (Json.obj [("a", Json.num 1)]) ∧
    extract_json "\x7b\"a\": \x7b\"b\": 1\x7d\x7d trailing" =
      some (Json.obj [("a", Json.obj [("b", Json.num 1)])]) ∧
    extract_json "no json here" = none ∧
    extract_json "\x7b\"bad\": json\x7d" = none ∧
    braceMatch "prefix text \x7b\"a\":1\x7d suffix" = some "\x7b\"a\":1\x7d" :=
  ⟨rfl, rfl, rfl, rfl, rfl⟩

/-- C6 counterexample: the two-segment route `KZ-RU` sets the transit flag
in the code, while the specified characterisation (at least three segments
with `KZ` strictly interior) is false for it. -/
theorem C6_counterexample :
    kz_as_transit "KZ-RU" = true ∧ spec_transit "KZ-RU" = false ∧
    routeParts "KZ-RU" = ["KZ", "RU"] :=
  ⟨rfl, rfl, rfl⟩

/-- C6 (corrected): the transit flag is set exactly when the route contains
a hyphen and `KZ` occurs among its trimmed upper-cased segments anywhere —
the `elif` branch of the code fires for any hyphenated route containing
`KZ`, subsuming the strictly-interior condition. -/
theorem C6_transit_flag_characterisation (route : String) :
    kz_as_transit route =
      (route.data.contains '-' && (routeParts route).contains "KZ") := by
  by_cases hc : route.data.contains '-' = true
  · have hne : route.isEmpty = false := by
      cases hE : route.isEmpty
      · rfl
      · exfalso
        have hr : route = "" := (String.isEmpty_iff route).mp hE
        rw [hr] at hc
        simp [List.contains] at hc
    have hmem : '-' ∈ route.data := by
      simpa [List.contains, List.elem_iff] using hc
    have hcount : 1 ≤ route.data.count '-' := List.count_pos_iff.mpr hmem
    have hlen : (routeParts route).length = route.data.count '-' + 1 := by
      simp [routeParts, splitOnChar_length]
    have hlen2 : 2 ≤ (routeParts route).length := by omega
    have hsub : "KZ" ∈ pyInterior (routeParts route) → "KZ" ∈ routeParts route :=
      fun hin => pyInterior_subset _ hin
    by_cases hKZp : "KZ" ∈ routeParts route
    · by_cases hKZi : "KZ" ∈ pyInterior (routeParts route) <;>
        simp [kz_as_transit, hne, hc, hKZp, hKZi, hlen2]
    · have hKZi : ¬ "KZ" ∈ pyInterior (routeParts route) := fun hin => hKZp (hsub hin)
      simp [kz_as_transit, hne, hc, hKZp, hKZi]
  · have hc2 : route.data.contains '-' = false := by
      cases h : route.data.contains '-'
      · rfl
      · exact absurd h hc
    have hnm : ¬ '-' ∈ route.data := by
      simpa [List.contains, List.elem_iff] using hc2
    simp [kz_as_transit, hnm]

/-- Witness for C6 at a concrete route. -/
theorem C6_transit_flag_characterisation_witness :
    kz_as_transit "CN-KZ-RU" =
      (("CN-KZ-RU" : String).data.contains '-' &&
        (routeParts "CN-KZ-RU").contains "KZ") :=
  C6_transit_flag_characterisation "CN-KZ-RU"

/-- C7 counterexample: the non-empty input `"AB"` cleans to `"AB"`, yet the
variant list is empty — the final filter drops every variant that is at most
two characters long, so the cleaned original is not always included. -/
theorem C7_counterexample :
    ("AB" : String).isEmpty = false ∧
    clean_name "AB" = "AB" ∧
    generate_all_variants defaultEnv "AB" "company" = [] :=
  ⟨rfl, by decide, by decide⟩

/-- C7 (corrected): the variant list contains the whitespace-collapsed,
quote-normalised form of the input whenever that cleaned form passes the
final filter, i.e. is longer than two characters, not whitespace-only and
not itself a bare legal-form token; this holds for every library
environment and entity kind. -/
theorem C7_contains_cleaned_name (env : NormalizerEnv)
    (name entity_type : String)
    (hf : variantFilter (clean_name name) = true) :
    clean_name name ∈ generate_all_variants env name entity_type := by
  have hne : name.isEmpty = false := by
    cases hE : name.isEmpty
    · rfl
    · exfalso
      have hn : name = "" := (String.isEmpty_iff name).mp hE
      rw [hn] at hf
      exact absurd hf (by decide)
  unfold generate_all_variants
  simp only [hne, Bool.false_eq_true, if_false, List.mem_insertionSort,
    List.mem_dedup, List.mem_filter]
  refine ⟨?_, hf⟩
  split <;> simp [List.mem_append]

/-- Witness for C7: the cleaned form of `"Abc"` passes the filter and is a
member of the generated variants. -/
theorem C7_contains_cleaned_name_witness :
    variantFilter (clean_name "Abc") = true ∧
    clean_name "Abc" ∈ generate_all_variants defaultEnv "Abc" "company" :=
  ⟨by decide, C7_contains_cleaned_name defaultEnv "Abc" "company" (by decide)⟩

/-- C8 (confirmed): for every library environment, input name and entity
kind, no bare legal-form token (a member of the `LEGAL_FORMS` list, e.g.
exactly `"ООО"` or exactly `"LLC"`) occurs in the generated variant list:
the final filter removes them. -/
theorem C8_no_bare_legal_form (env : NormalizerEnv)
    (name entity_type t : String) (ht : t ∈ LEGAL_FORMS) :
    t ∉ generate_all_variants env name entity_type := by
  intro hmem
  unfold generate_all_variants at hmem
  by_cases hE : name.isEmpty
  · rw [if_pos hE] at hmem
    exact absurd hmem (List.not_mem_nil t)
  · rw [if_neg hE] at hmem
    simp only [List.mem_insertionSort, List.mem_dedup, List.mem_filter] at hmem
    have hp := hmem.2
    simp only [variantFilter, Bool.and_eq_true, Bool.not_eq_true'] at hp
    have hcontains : LEGAL_FORMS.contains t = true := by
      simpa [List.contains, List.elem_iff] using ht
    rw [hp.2] at hcontains
    exact Bool.false_ne_true hcontains

/-- Witness for C8: `"ООО"` is a legal-form token and is absent from the
variants generated for `"ООО Газпром"`. -/
theorem C8_no_bare_legal_form_witness :
    "ООО" ∈ LEGAL_FORMS ∧
    "ООО" ∉ generate_all_variants defaultEnv "ООО Газпром" "company" :=
  ⟨by decide, C8_no_bare_legal_form defaultEnv "ООО Газпром" "company" "ООО" (by decide)⟩

/-- C9 (confirmed): `generate_all_variants` is a pure function — two calls
with equal arguments return identical ordered output — and the output is
sorted by the code's key: descending length first, then lexicographically on
the lower-cased variant. -/
theorem C9_deterministic_and_sorted (env : NormalizerEnv)
    (name entity_type name2 entity_type2 : String)
    (h1 : name = name2) (h2 : entity_type = entity_type2) :
    generate_all_variants env name entity_type =
      generate_all_variants env name2 entity_type2 ∧
    List.Sorted variantRel (generate_all_variants env name entity_type) := by
  subst h1
  subst h2
  refine ⟨rfl, ?_⟩
  unfold generate_all_variants
  split
  · exact List.sorted_nil
  · exact List.sorted_insertionSort variantRel _

/-- Witness for C9 at a concrete input. -/
theorem C9_deterministic_and_sorted_witness :
    generate_all_variants defaultEnv "Abc" "company" =
      generate_all_variants defaultEnv "Abc" "company" ∧
    List.Sorted variantRel (generate_all_variants defaultEnv "Abc" "company") :=
  C9_deterministic_and_sorted defaultEnv "Abc" "company" "Abc" "company" rfl rfl

/-- C10 (confirmed): `from_flat_payload` folds the counterparty bank name
into `BIK_SWIFT` — the result for `{"Counterparty Bank Name": "Bank X"}`
has a `BIK_SWIFT` containing `"Bank X"` — and re-normalising the resulting
payload leaves it unchanged: the value is appended only when both values
are non-empty and the new value is not already a substring of the existing
one. -/
theorem C10_bik_swift_folding_idempotent :
    pyInStr "Bank X"
      ((payloadGet (from_flat_payload
        [("Counterparty Bank Name", FlatVal.str "Bank X")]) "BIK_SWIFT").getD "") = true ∧
    from_flat_payload
      ((from_flat_payload [("Counterparty Bank Name", FlatVal.str "Bank X")]).map
        (fun kv => (kv.1, FlatVal.str kv.2))) =
      from_flat_payload [("Counterparty Bank Name", FlatVal.str "Bank X")] :=
  ⟨rfl, rfl⟩

end ComplianceControl
